import Mathlib

/-!
Verification of the parameter-demo notebook `quick_start/v1/05_OpenAI_parameters.ipynb`.

The notebook builds chat-completion request payloads, sends each to a remote
Azure OpenAI endpoint, and post-processes the response.  We embed the payload
construction and post-processing exactly as the Python code writes them, and
treat the remote endpooint as an abstract service `Service`.  Properties of the
remote service itself (choice counts, parameter validation, defaults, token
caps, best-effort determinism) are not code of this repository; they are
modelled from the specification as explicit contract predicates on `Service`
and taken as hypotheses.
-/

/-- A chat message, the Python dict `{"role": ..., "content": ...}`. -/
structure Message where
  role : String
  content : String
deriving Repr, DecidableEq

/-- One element of `response.choices`; the code reads `c.message.content`. -/
structure Choice where
  message : Message
deriving Repr, DecidableEq

/-- The remote response, `{choices: [{message:{content}}]}`. -/
structure ChatResponse where
  choices : List Choice
deriving Repr, DecidableEq

/-- Modelled from the spec (section 7): the two error kinds the remote call can
surface, `RemoteServiceError` (network/auth/rate-limit) and
`InvalidParameterError` (service-side validation rejection, carrying the
offending field name).  The repository contains no error-handling code, so the
error type itself comes from the spec. -/
inductive ApiError where
  | remoteService (msg : String)
  | invalidParameter (field : String)
deriving Repr, DecidableEq

/-- The JSON body assembled by `client.chat.completions.create(...)`: a field is
`none` exactly when the corresponding keyword argument is not passed at the
call site.  Python floats are modelled as rationals (every literal in the
notebook is exactly representable), Python ints as `Int`/`Nat`. -/
structure Payload where
  model : String
  messages : List Message
  max_tokens : Option Int
  temperature : Option Rat
  top_p : Option Rat
  n : Option Nat
  presence_penalty : Option Rat
  frequency_penalty : Option Rat
  seed : Option Int
  stop : Option (List String)
deriving Repr, DecidableEq

/-- The remote chat-completion endpoint, abstract: one call maps a payload to
either a response or a raised error. -/
abbrev Service := Payload → Except ApiError ChatResponse

/-- The fixed system message every call site writes first:
`{"role":"system", "content":"You are a helpful assistant."}`. -/
def systemMessage : Message :=
  { role := "system", content := "You are a helpful assistant." }

/-- The user message, `{"role":"user","content": prompt}`. -/
def userMessage (prompt : String) : Message :=
  { role := "user", content := prompt }

/-- The two-element `messages` list every call site builds. -/
def mkMessages (prompt : String) : List Message :=
  [systemMessage, userMessage prompt]

/-- The module-level constant `SEED = 123`. -/
def SEED : Int := 123

/-- A payload with the given model and prompt and no optional parameter set. -/
def basePayload (model : String) (prompt : String) : Payload :=
  { model := model
    messages := mkMessages prompt
    max_tokens := none
    temperature := none
    top_p := none
    n := none
    presence_penalty := none
    frequency_penalty := none
    seed := none
    stop := none }

/-- The payload built by `call_openai_with_max_tokens(max_tokens)`: fixed
prompt `"The best pet is a"`, only `max_tokens` passed. -/
def maxTokensPayload (model : String) (max_tokens : Int) : Payload :=
  { basePayload model "The best pet is a" with max_tokens := some max_tokens }

/-- The payload built inside `call_openai(num_times, prompt, temperature,
use_seed)`: `max_tokens=60`, `temperature` always passed, and `seed=SEED`
exactly when `use_seed` is true. -/
def callOpenaiPayload (model : String) (prompt : String) (temperature : Rat)
    (use_seed : Bool) : Payload :=
  if use_seed then
    { basePayload model prompt with
        max_tokens := some 60, seed := some SEED, temperature := some temperature }
  else
    { basePayload model prompt with
        max_tokens := some 60, temperature := some temperature }

/-- The payload built by the `n=2` demo cell: fixed prompt
`"The best pet is a "` (trailing space, as in the source), `max_tokens=60`,
`n=2`. -/
def nDemoPayload (model : String) : Payload :=
  { basePayload model "The best pet is a " with max_tokens := some 60, n := some 2 }

/-- The payload built by `call_openai_with_presence_penalty(presence_penalty)`:
fixed prompt `"The best pet is a"`, `max_tokens=60`, only the presence penalty
passed. -/
def presencePenaltyPayload (model : String) (presence_penalty : Rat) : Payload :=
  { basePayload model "The best pet is a" with
      max_tokens := some 60, presence_penalty := some presence_penalty }

/-- Outcome of one single-call wrapper, separating the Python behaviours:
a returned string, a raised API error (uncaught, so it propagates), or the
`IndexError` that `response.choices[0]` would raise on an empty list. -/
inductive CallOutcome where
  | ok (text : String)
  | err (e : ApiError)
  | indexError
deriving Repr, DecidableEq

/-- `call_openai_with_max_tokens`: one `create` call, then
`return response.choices[0].message.content`. -/
def call_openai_with_max_tokens (svc : Service) (model : String)
    (max_tokens : Int) : CallOutcome :=
  match svc (maxTokensPayload model max_tokens) with
  | .error e => .err e
  | .ok r =>
    match r.choices with
    | [] => .indexError
    | c :: _ => .ok c.message.content

/-- `call_openai_with_presence_penalty`: one `create` call, then
`return response.choices[0].message.content`. -/
def call_openai_with_presence_penalty (svc : Service) (model : String)
    (presence_penalty : Rat) : CallOutcome :=
  match svc (presencePenaltyPayload model presence_penalty) with
  | .error e => .err e
  | .ok r =>
    match r.choices with
    | [] => .indexError
    | c :: _ => .ok c.message.content

/-- A network-level event: a request is issued, or a response (or raised
error) is received. -/
inductive Ev where
  | req (p : Payload)
  | resp (r : Except ApiError ChatResponse)
deriving Repr

/-- The network trace of one `create` call: the request goes out and its
response comes back before control returns. -/
def call_trace (svc : Service) (p : Payload) : List Ev :=
  [Ev.req p, Ev.resp (svc p)]

/-- How the `call_openai` loop terminated: ran to completion, aborted by a
raised API error, or aborted by the `IndexError` of `choices[0]`. -/
inductive LoopStop where
  | done
  | raised (e : ApiError)
  | indexError
deriving Repr, DecidableEq

/-- Observable behaviour of one run of the `call_openai` loop: the network
events in order, the strings printed, and how the loop stopped. -/
structure LoopRun where
  events : List Ev
  printed : List String
  stop : LoopStop
deriving Repr

/-- `call_openai(num_times, prompt, temperature, use_seed)`: a `for` loop that
per iteration makes one `create` call and prints
`response.choices[0].message.content`.  An uncaught exception aborts the
loop.  The payload does not depend on the loop index, so the loop is recursion
on the remaining count. -/
def call_openai (svc : Service) (model : String) (num_times : Nat)
    (prompt : String) (temperature : Rat) (use_seed : Bool) : LoopRun :=
  match num_times with
  | 0 => ⟨[], [], .done⟩
  | Nat.succ k =>
    let p := callOpenaiPayload model prompt temperature use_seed
    match svc p with
    | .error e => ⟨[Ev.req p, Ev.resp (.error e)], [], .raised e⟩
    | .ok r =>
      match r.choices with
      | [] => ⟨[Ev.req p, Ev.resp (.ok r)], [], .indexError⟩
      | c :: _ =>
        let rest := call_openai svc model k prompt temperature use_seed
        ⟨Ev.req p :: Ev.resp (.ok r) :: rest.events,
         c.message.content :: rest.printed, rest.stop⟩

/-- The `n=2` demo cell: one `create` call with `n=2`, then
`for index, c in enumerate(response.choices): print(index, c.message.content)`.
Returns the printed (index, content) pairs, or the raised error. -/
def nDemoOutput (svc : Service) (model : String) :
    Except ApiError (List (Nat × String)) :=
  match svc (nDemoPayload model) with
  | .error e => .error e
  | .ok r => .ok (r.choices.enum.map (fun ic => (ic.1, ic.2.message.content)))

/-- Modelled from the spec (sections 3 and 4.1): the `Request` of the
`CompletionRequester` abstraction.  The repository exposes only the concrete
demo wrappers, not this general operation, so the record follows the spec's
data model (the system prompt is fixed, so it is not a field). -/
structure Request where
  userPrompt : String
  maxTokens : Option Int
  temperature : Option Rat
  topP : Option Rat
  n : Option Nat
  presencePenalty : Option Rat
  frequencyPenalty : Option Rat
  seed : Option Int
deriving Repr, DecidableEq

/-- Payload sent for a spec-level `Request`: fixed system prompt, the user
prompt, and every optional parameter passed through verbatim. -/
def payloadOfRequest (model : String) (rq : Request) : Payload :=
  { model := model
    messages := mkMessages rq.userPrompt
    max_tokens := rq.maxTokens
    temperature := rq.temperature
    top_p := rq.topP
    n := rq.n
    presence_penalty := rq.presencePenalty
    frequency_penalty := rq.frequencyPenalty
    seed := rq.seed
    stop := none }

/-- Modelled from the spec (section 4.1): `complete(request) -> Response` —
one service call, returning the generated strings in the order the service
returns its choices. -/
def complete (svc : Service) (model : String) (rq : Request) :
    Except ApiError (List String) :=
  match svc (payloadOfRequest model rq) with
  | .error e => .error e
  | .ok r => .ok (r.choices.map (fun c => c.message.content))

/-- Modelled from the spec (section 8 and the notebook's parameter cells): the
parameter values the remote service effectively uses after applying the
documented defaults `max_tokens=16`, `temperature=1`, `n=1`,
`presence_penalty=0`, `frequency_penalty=0` to omitted fields; parameters with
no documented default pass through unchanged. -/
structure EffectiveParams where
  model : String
  messages : List Message
  max_tokens : Int
  temperature : Rat
  top_p : Option Rat
  n : Nat
  presence_penalty : Rat
  frequency_penalty : Rat
  seed : Option Int
  stop2 : Option (List String)
deriving Repr, DecidableEq

/-- Modelled from the spec: fill the documented defaults into a payload. -/
def effectiveParams (p : Payload) : EffectiveParams :=
  { model := p.model
    messages := p.messages
    max_tokens := p.max_tokens.getD 16
    temperature := p.temperature.getD 1
    top_p := p.top_p
    n := p.n.getD 1
    presence_penalty := p.presence_penalty.getD 0
    frequency_penalty := p.frequency_penalty.getD 0
    seed := p.seed
    stop2 := p.stop }

/-- Modelled from the spec (section 8, defaults): the remote service's result
depends only on the effective parameters, i.e. omitting a parameter behaves
exactly as supplying its documented default. -/
def RespectsDefaults (svc : Service) : Prop :=
  ∀ p q : Payload, effectiveParams p = effectiveParams q → svc p = svc q

/-- Modelled from the spec (sections 3, 4.1 and 8): a successful response
carries exactly the effective number `n` of choices. -/
def ChoiceCountContract (svc : Service) : Prop :=
  ∀ p r, svc p = .ok r → r.choices.length = (effectiveParams p).n

/-- A penalty field is absent or within the documented range `[-2, 2]`. -/
def penaltyRangeOk : Option Rat → Bool
  | none => true
  | some v => decide (-2 ≤ v ∧ v ≤ 2)

/-- Both penalty fields of a payload are absent or in range. -/
def penaltiesValid (p : Payload) : Bool :=
  penaltyRangeOk p.presence_penalty && penaltyRangeOk p.frequency_penalty

/-- Modelled from the spec (sections 7 and 8): the remote service rejects a
payload whose presence or frequency penalty is outside `[-2, 2]` with an
`InvalidParameterError` naming the offending field. -/
def PenaltyValidation (svc : Service) : Prop :=
  ∀ p, penaltiesValid p = false → ∃ f, svc p = .error (.invalidParameter f)

/-- Modelled from the spec (section 8): a healthy service run — every payload
whose parameters are valid gets a successful response (no network/auth/quota
failure occurred). -/
def Healthy (svc : Service) : Prop :=
  ∀ p, penaltiesValid p = true → ∃ r, svc p = .ok r

/-- Modelled from the spec (section 8 `max_tokens=0` and the notebook's
`max_tokens` cell): the number of generated tokens of every returned
completion, measured by the abstract tokenizer `tokenLen`, is capped by the
effective `max_tokens` (clamped at zero). -/
def TokenCap (tokenLen : String → Nat) (svc : Service) : Prop :=
  ∀ p r, svc p = .ok r →
    ∀ c ∈ r.choices, tokenLen c.message.content ≤ (effectiveParams p).max_tokens.toNat

/-- Number of requests issued in a trace. -/
def reqCount (l : List Ev) : Nat :=
  l.countP (fun e => match e with | Ev.req _ => true | Ev.resp _ => false)

/-- A trace is strictly sequential: it is a sequence of request/response
pairs, each request answered before the next request is issued — at no point
are two requests outstanding. -/
def seqEventsB : List Ev → Bool
  | [] => true
  | Ev.req _ :: Ev.resp _ :: rest => seqEventsB rest
  | _ => false

/-- A concrete spec-conforming service used to witness the contract
hypotheses: it answers every payload with the effective number of empty
assistant completions. -/
def witSvc : Service := fun p =>
  .ok ⟨List.replicate (effectiveParams p).n ⟨⟨"assistant", ""⟩⟩⟩

/-- A concrete validating service: rejects out-of-range penalties with
`InvalidParameterError "presence_penalty"`, otherwise answers like
`witSvc`. -/
def valSvc : Service := fun p =>
  if penaltiesValid p then witSvc p else .error (.invalidParameter "presence_penalty")

/-- A concrete always-failing service, e.g. the network is down. -/
def downSvc : Service := fun _ => .error (.remoteService "connection refused")

/-- A concrete service returning a fixed response, used to show what the
wrappers extract from a response. -/
def constSvc (r : ChatResponse) : Service := fun _ => .ok r

/-- The token measure used by witnesses: zero tokens for the empty string,
one otherwise. -/
def witTokenLen (s : String) : Nat := if s = "" then 0 else 1

/-- Modelled from the spec (section 8): the spec-level request with every
optional parameter omitted. -/
def emptyRequest (prompt : String) : Request :=
  ⟨prompt, none, none, none, none, none, none, none⟩

/-- Modelled from the spec (section 8): the spec-level request with the
documented defaults supplied explicitly. -/
def defaultedRequest (prompt : String) : Request :=
  ⟨prompt, some 16, some 1, none, some 1, some 0, some 0, none⟩

theorem witSvc_count : ChoiceCountContract witSvc := by
  intro p r h
  cases h
  exact List.length_replicate _ _

theorem witSvc_healthy : Healthy witSvc := fun _ _ => ⟨_, rfl⟩

theorem witSvc_defaults : RespectsDefaults witSvc := by
  intro p q h
  unfold witSvc
  rw [h]

theorem witSvc_tokenCap : TokenCap witTokenLen witSvc := by
  intro p r h c hc
  cases h
  have := List.eq_of_mem_replicate hc
  subst this
  simp [witTokenLen]

theorem witTokenLen_zero : ∀ s, witTokenLen s = 0 → s = "" := by
  intro s h
  by_cases hs : s = ""
  · exact hs
  · simp [witTokenLen, hs] at h

theorem valSvc_validation : PenaltyValidation valSvc := by
  intro p h
  exact ⟨"presence_penalty", by simp [valSvc, h]⟩

theorem valSvc_healthy : Healthy valSvc := by
  intro p h
  refine ⟨⟨List.replicate (effectiveParams p).n ⟨⟨"assistant", ""⟩⟩⟩, ?_⟩
  simp [valSvc, h, witSvc]

/-- C6: on every input on which they succeed, the single-completion wrappers
`call_openai_with_max_tokens` and `call_openai_with_presence_penalty` return
exactly the content of the first choice of the remote response; the result is
the same whatever further choices the response carries, so those are
discarded. -/
theorem c6_wrappers_return_first_choice_only (model : String) (mt : Int)
    (pp : Rat) (c : Choice) (rest rest' : List Choice) :
    call_openai_with_max_tokens (constSvc ⟨c :: rest⟩) model mt
        = .ok c.message.content ∧
    call_openai_with_presence_penalty (constSvc ⟨c :: rest'⟩) model pp
        = .ok c.message.content :=
  ⟨rfl, rfl⟩

/-- C7: every request payload built by the notebook — by
`call_openai_with_max_tokens`, `call_openai`,
`call_openai_with_presence_penalty` and the `n=2` demo cell — has the fixed
system prompt "You are a helpful assistant." as its first message and the
user prompt as its second message, for all parameter combinations. -/
theorem c7_payload_messages_invariant (model prompt : String) (mt : Int)
    (pp temp : Rat) (use_seed : Bool) :
    (maxTokensPayload model mt).messages
        = [systemMessage, userMessage "The best pet is a"] ∧
    (callOpenaiPayload model prompt temp use_seed).messages
        = [systemMessage, userMessage prompt] ∧
    (presencePenaltyPayload model pp).messages
        = [systemMessage, userMessage "The best pet is a"] ∧
    (nDemoPayload model).messages
        = [systemMessage, userMessage "The best pet is a "] ∧
    systemMessage = { role := "system", content := "You are a helpful assistant." } := by
  refine ⟨rfl, ?_, rfl, rfl, rfl⟩
  cases use_seed <;> rfl

/-- C10: no payload built by the notebook carries the `frequency_penalty`,
`top_p` or `stop` fields, and a payload carries the `seed` field exactly when
the caller passes `use_seed=True` to `call_openai` (in which case it is the
module constant `SEED = 123`). -/
theorem c10_frame_untransmitted_fields (model prompt : String) (mt : Int)
    (pp temp : Rat) (use_seed : Bool) :
    (maxTokensPayload model mt).frequency_penalty = none ∧
    (maxTokensPayload model mt).top_p = none ∧
    (maxTokensPayload model mt).stop = none ∧
    (maxTokensPayload model mt).seed = none ∧
    (callOpenaiPayload model prompt temp use_seed).frequency_penalty = none ∧
    (callOpenaiPayload model prompt temp use_seed).top_p = none ∧
    (callOpenaiPayload model prompt temp use_seed).stop = none ∧
    (callOpenaiPayload model prompt temp use_seed).seed
        = (if use_seed then some SEED else none) ∧
    (presencePenaltyPayload model pp).frequency_penalty = none ∧
    (presencePenaltyPayload model pp).top_p = none ∧
    (presencePenaltyPayload model pp).stop = none ∧
    (presencePenaltyPayload model pp).seed = none ∧
    (nDemoPayload model).frequency_penalty = none ∧
    (nDemoPayload model).top_p = none ∧
    (nDemoPayload model).stop = none ∧
    (nDemoPayload model).seed = none := by
  cases use_seed <;>
    exact ⟨rfl, rfl, rfl, rfl, rfl, rfl, rfl, rfl, rfl, rfl, rfl, rfl, rfl, rfl, rfl, rfl⟩

/-- C3: when the remote call raises, the wrappers fail with exactly that
error — there are only the two error kinds `RemoteServiceError` and
`InvalidParameterError`, both propagate to the caller unchanged, and the
wrapper still performs exactly one network call (no retry, no fallback). -/
theorem c3_failures_propagate_no_recovery (svc : Service) (model : String)
    (mt : Int) (pp : Rat) (e e' : ApiError)
    (herr : svc (maxTokensPayload model mt) = .error e)
    (herr' : svc (presencePenaltyPayload model pp) = .error e') :
    call_openai_with_max_tokens svc model mt = .err e ∧
    call_openai_with_presence_penalty svc model pp = .err e' ∧
    ((∃ s, e = .remoteService s) ∨ (∃ f, e = .invalidParameter f)) ∧
    reqCount (call_trace svc (maxTokensPayload model mt)) = 1 ∧
    reqCount (call_trace svc (presencePenaltyPayload model pp)) = 1 := by
  refine ⟨?_, ?_, ?_, rfl, rfl⟩
  · unfold call_openai_with_max_tokens
    rw [herr]
  · unfold call_openai_with_presence_penalty
    rw [herr']
  · cases e with
    | remoteService s => exact Or.inl ⟨s, rfl⟩
    | invalidParameter f => exact Or.inr ⟨f, rfl⟩

/-- Witness for C3 at a concrete failing service: the network-down service
makes both wrappers fail with the propagated `RemoteServiceError`. -/
theorem c3_failures_propagate_no_recovery_witness :
    call_openai_with_max_tokens downSvc "m" 16 = .err (.remoteService "connection refused") ∧
    call_openai_with_presence_penalty downSvc "m" 0 = .err (.remoteService "connection refused") ∧
    ((∃ s, ApiError.remoteService "connection refused" = .remoteService s) ∨
      (∃ f, ApiError.remoteService "connection refused" = .invalidParameter f)) ∧
    reqCount (call_trace downSvc (maxTokensPayload "m" 16)) = 1 ∧
    reqCount (call_trace downSvc (presencePenaltyPayload "m" 0)) = 1 :=
  c3_failures_propagate_no_recovery downSvc "m" 16 0 _ _ rfl rfl

/-- C9: execution of the `call_openai` loop is strictly sequential — its
network trace is a sequence of request/response pairs in which every request
is fully answered before the next request is issued (never two outstanding),
on a normally-responding run the loop issues exactly `num_times` requests,
and a single wrapper invocation performs exactly one network call. -/
theorem c9_sequential_one_call_per_iteration (svc : Service) (model : String)
    (num_times : Nat) (prompt : String) (temp : Rat) (use_seed : Bool)
    (r : ChatResponse)
    (hok : svc (callOpenaiPayload model prompt temp use_seed) = .ok r)
    (hne : r.choices ≠ []) :
    seqEventsB (call_openai svc model num_times prompt temp use_seed).events = true ∧
    reqCount (call_openai svc model num_times prompt temp use_seed).events = num_times ∧
    reqCount (call_trace svc (callOpenaiPayload model prompt temp use_seed)) = 1 := by
  have key : ∀ k : Nat,
      seqEventsB (call_openai svc model k prompt temp use_seed).events = true ∧
      reqCount (call_openai svc model k prompt temp use_seed).events = k := by
    intro k
    induction k with
    | zero => exact ⟨rfl, rfl⟩
    | succ j ih =>
      obtain ⟨ih1, ih2⟩ := ih
      cases hc : r.choices with
      | nil => exact absurd hc hne
      | cons c cs =>
        simp only [call_openai]
        rw [hok]
        simp only [reqCount] at ih2 ⊢
        simp [hc, seqEventsB, List.countP_cons, ih1, ih2]
  exact ⟨(key num_times).1, (key num_times).2, rfl⟩

/-- Witness for C9 at a concrete service and loop count. -/
theorem c9_sequential_one_call_per_iteration_witness :
    seqEventsB (call_openai witSvc "m" 3 "p" 1 false).events = true ∧
    reqCount (call_openai witSvc "m" 3 "p" 1 false).events = 3 ∧
    reqCount (call_trace witSvc (callOpenaiPayload "m" "p" 1 false)) = 1 :=
  c9_sequential_one_call_per_iteration witSvc "m" 3 "p" 1 false
    ⟨[⟨⟨"assistant", ""⟩⟩]⟩ rfl (by decide)

/-- C2: under best-effort determinism of the remote service — two service
runs agree on every payload that fixes a seed and sets temperature 0 — two
runs of `call_openai` with identical prompts, `use_seed=True` (the fixed
module seed) and `temperature=0` produce identical observable behaviour, in
particular identical printed output. -/
theorem c2_seeded_zero_temperature_runs_identical (svc1 svc2 : Service)
    (model : String) (num_times : Nat) (prompt : String)
    (hdet : ∀ p : Payload, p.seed ≠ none → p.temperature = some 0 → svc1 p = svc2 p) :
    call_openai svc1 model num_times prompt 0 true
      = call_openai svc2 model num_times prompt 0 true := by
  have hseed : (callOpenaiPayload model prompt 0 true).seed ≠ none := by
    simp [callOpenaiPayload]
  have htemp : (callOpenaiPayload model prompt 0 true).temperature = some 0 := by
    simp [callOpenaiPayload]
  have hp := hdet _ hseed htemp
  induction num_times with
  | zero => rfl
  | succ j ih =>
    simp only [call_openai]
    rw [hp, ih]

/-- Witness for C2 at a concrete deterministic service. -/
theorem c2_seeded_zero_temperature_runs_identical_witness :
    call_openai witSvc "m" 2 "The best pet is a " 0 true
      = call_openai witSvc "m" 2 "The best pet is a " 0 true :=
  c2_seeded_zero_temperature_runs_identical witSvc witSvc "m" 2 "The best pet is a "
    (fun _ _ _ => rfl)

/-- C1: under the spec's response contract — a successful response carries
exactly the effective `n` choices — a request with `n=k` (`k ≥ 1`) that the
service answers yields a response sequence of exactly `k` generated strings,
and element `i` of the sequence is the content of choice `i` of the remote
response (insertion order = generation order). -/
theorem c1_n_completions_ordered (svc : Service) (model : String) (k : Nat)
    (rq : Request) (_hk : 1 ≤ k) (hcount : ChoiceCountContract svc)
    (hn : rq.n = some k) (r : ChatResponse)
    (hok : svc (payloadOfRequest model rq) = .ok r) :
    ∃ l, complete svc model rq = .ok l ∧ l.length = k ∧
      ∀ i : Nat, l[i]? = (r.choices[i]?).map (fun c => c.message.content) := by
  refine ⟨r.choices.map (fun c => c.message.content), ?_, ?_, ?_⟩
  · unfold complete
    rw [hok]
  · rw [List.length_map]
    have h := hcount _ _ hok
    rw [h]
    simp [effectiveParams, payloadOfRequest, hn]
  · intro i
    exact List.getElem?_map _ _ i

/-- Witness for C1 at a concrete contract-conforming service and a request
with `n=2`. -/
theorem c1_n_completions_ordered_witness :
    ∃ l, complete witSvc "m" (Request.mk "p" none none none (some 2) none none none)
        = .ok l ∧ l.length = 2 ∧
      ∀ i : Nat, l[i]?
        = ((⟨List.replicate 2 ⟨⟨"assistant", ""⟩⟩⟩ : ChatResponse).choices[i]?).map
            (fun c => c.message.content) :=
  c1_n_completions_ordered witSvc "m" 2
    (Request.mk "p" none none none (some 2) none none none)
    (by decide) witSvc_count rfl ⟨List.replicate 2 ⟨⟨"assistant", ""⟩⟩⟩ rfl

/-- C4: under the spec's validation contract — the service rejects
out-of-range penalties with `InvalidParameterError`, and answers successfully
when parameters are valid — `call_openai_with_presence_penalty` fails with
`InvalidParameterError` exactly when the penalty lies outside `[-2, 2]`. -/
theorem c4_penalty_out_of_range_iff_invalid (svc : Service) (model : String)
    (pp : Rat) (hval : PenaltyValidation svc) (hhealthy : Healthy svc) :
    (∃ f, call_openai_with_presence_penalty svc model pp = .err (.invalidParameter f))
      ↔ ¬(-2 ≤ pp ∧ pp ≤ 2) := by
  have hpv : penaltiesValid (presencePenaltyPayload model pp)
      = decide (-2 ≤ pp ∧ pp ≤ 2) := by
    simp [penaltiesValid, presencePenaltyPayload, basePayload, penaltyRangeOk]
  constructor
  · rintro ⟨f, hf⟩ hrange
    have hv : penaltiesValid (presencePenaltyPayload model pp) = true := by
      rw [hpv]
      exact decide_eq_true hrange
    obtain ⟨r, hr⟩ := hhealthy _ hv
    unfold call_openai_with_presence_penalty at hf
    rw [hr] at hf
    cases hc : r.choices with
    | nil => simp [hc] at hf
    | cons c cs => simp [hc] at hf
  · intro hrange
    have hv : penaltiesValid (presencePenaltyPayload model pp) = false := by
      rw [hpv]
      exact decide_eq_false hrange
    obtain ⟨f, hf⟩ := hval _ hv
    refine ⟨f, ?_⟩
    unfold call_openai_with_presence_penalty
    rw [hf]

/-- Witness for C4 at a concrete validating service and the out-of-range
penalty 3. -/
theorem c4_penalty_out_of_range_iff_invalid_witness :
    (∃ f, call_openai_with_presence_penalty valSvc "m" 3 = .err (.invalidParameter f))
      ↔ ¬(-2 ≤ (3 : Rat) ∧ (3 : Rat) ≤ 2) :=
  c4_penalty_out_of_range_iff_invalid valSvc "m" 3 valSvc_validation valSvc_healthy

/-- C5: under the spec's defaults contract — the service treats an omitted
parameter exactly as its documented default — a `complete` call omitting
every optional parameter behaves identically to one supplying
`max_tokens=16`, `temperature=1`, `n=1`, `presence_penalty=0`,
`frequency_penalty=0`, and on a healthy service it succeeds. -/
theorem c5_omitted_parameters_use_defaults (svc : Service) (model prompt : String)
    (hdef : RespectsDefaults svc) (hhealthy : Healthy svc) :
    complete svc model (emptyRequest prompt)
        = complete svc model (defaultedRequest prompt) ∧
    ∃ l, complete svc model (emptyRequest prompt) = .ok l := by
  have heq : effectiveParams (payloadOfRequest model (emptyRequest prompt))
      = effectiveParams (payloadOfRequest model (defaultedRequest prompt)) := rfl
  have hsvc := hdef _ _ heq
  constructor
  · unfold complete
    rw [hsvc]
  · have hv : penaltiesValid (payloadOfRequest model (emptyRequest prompt)) = true := rfl
    obtain ⟨r, hr⟩ := hhealthy _ hv
    exact ⟨_, by unfold complete; rw [hr]⟩

/-- Witness for C5 at a concrete defaults-respecting service. -/
theorem c5_omitted_parameters_use_defaults_witness :
    complete witSvc "m" (emptyRequest "p")
        = complete witSvc "m" (defaultedRequest "p") ∧
    ∃ l, complete witSvc "m" (emptyRequest "p") = .ok l :=
  c5_omitted_parameters_use_defaults witSvc "m" "p" witSvc_defaults witSvc_healthy

/-- C8: under the spec's token-cap contract — every returned completion has at
most the effective `max_tokens` tokens, and a zero-token string is empty — a
healthy, contract-conforming service makes
`call_openai_with_max_tokens(0)` succeed with the empty completion. -/
theorem c8_max_tokens_zero_empty (svc : Service) (model : String)
    (tokenLen : String → Nat) (hcap : TokenCap tokenLen svc)
    (htok : ∀ s, tokenLen s = 0 → s = "") (hhealthy : Healthy svc)
    (hcount : ChoiceCountContract svc) :
    call_openai_with_max_tokens svc model 0 = .ok "" := by
  have hv : penaltiesValid (maxTokensPayload model 0) = true := rfl
  obtain ⟨r, hr⟩ := hhealthy _ hv
  have hlen : r.choices.length = 1 := by
    have h := hcount _ _ hr
    simpa [effectiveParams, maxTokensPayload, basePayload] using h
  obtain ⟨c, hc⟩ := List.length_eq_one.mp hlen
  have hmem : c ∈ r.choices := by
    rw [hc]
    exact List.mem_singleton_self c
  have hle := hcap _ _ hr c hmem
  have h0 : tokenLen c.message.content = 0 := by
    have ha : (effectiveParams (maxTokensPayload model 0)).max_tokens.toNat = 0 := rfl
    omega
  have hemp := htok _ h0
  unfold call_openai_with_max_tokens
  rw [hr]
  simp [hc, hemp]

/-- Witness for C8 at a concrete token-capped service. -/
theorem c8_max_tokens_zero_empty_witness :
    call_openai_with_max_tokens witSvc "m" 0 = .ok "" :=
  c8_max_tokens_zero_empty witSvc "m" witTokenLen witSvc_tokenCap witTokenLen_zero
    witSvc_healthy witSvc_count
